import Mathlib

/-!
Verification of the FlaskProject books service (validator + SQLAlchemy
repository + route handlers), shallowly embedded from the Python source.

Source files embedded:
* `books/routes.py`   — payload validation and route handlers
* `books/repository.py` — ORM-backed store accessor over the `books` table
* `books/models.py`   — the `Book` table schema (including the unique
  constraint on `isbn` and the server-assigned `created_at` / `updated_at` /
  `status` columns)
* `app.py`            — the application-level error handlers (400/404/415
  mapped to JSON client errors, everything uncaught mapped to a generic 500)

Modelling conventions:
* JSON payloads are association lists of string keys and `JValue`s, the
  shape a decoded JSON object has after `request.get_json()`.
* Python `isinstance(x, int)` is true for booleans (`bool` is a subclass of
  `int`), so the embedded integer-instance check accepts `jbool`.
* The database is a list of rows plus the autoincrement counter; server
  time is passed explicitly (`now`) to the operations that timestamp rows.
* The unique constraint on `isbn` raises an integrity error on commit; the
  embedding returns `RepoError.uniqueViolation` and leaves the table
  unchanged (the failed transaction rolls back).
-/

set_option autoImplicit false

namespace FlaskBooks

/-- A decoded JSON value as Python's `request.get_json()` yields it.
`jbool` is separate from `jint` but Python's `isinstance(_, int)` accepts
booleans; `jobj` is a decoded JSON object (a Python dict). -/
inductive JValue where
  | jnull
  | jbool (b : Bool)
  | jint (n : Int)
  | jstr (s : String)
  | jarr (elems : List JValue)
  | jobj (fields : List (String × JValue))

/-- A decoded JSON object: what `_require_json_object` returns. -/
abbrev Payload := List (String × JValue)

/-- Dictionary lookup: the value bound to key `k` (first binding wins, as in
a Python dict, which cannot hold duplicate keys). -/
def lookupKey (d : Payload) (k : String) : Option JValue :=
  (d.find? (fun kv => kv.1 == k)).map (fun kv => kv.2)

/-- The key list of a decoded JSON object (`data.keys()`). -/
def dictKeys (d : Payload) : List String :=
  d.map (fun kv => kv.1)

/-- ALLOWED_FIELDS from `books/routes.py`. -/
def allowedFields : List String := ["title", "author", "year", "isbn"]

/-- sorted(ALLOWED_FIELDS): the order the missing-field check iterates in. -/
def sortedAllowedFields : List String := ["author", "isbn", "title", "year"]

/-- The three fields checked with `isinstance(_, str)` in `_validate_fields`. -/
def stringFields : List String := ["title", "author", "isbn"]

/-- Python `isinstance(v, int)` on a decoded JSON value: true for integers
and for booleans (`bool` subclasses `int`), false otherwise. -/
def isIntInstance : JValue → Bool
  | .jint _ => true
  | .jbool _ => true
  | _ => false

/-- Python `isinstance(v, str)` on a decoded JSON value. -/
def isStrInstance : JValue → Bool
  | .jstr _ => true
  | _ => false

/-- The check `"year" in data and not isinstance(data["year"], int)`. -/
def yearCheckFails (data : Payload) : Bool :=
  match lookupKey data "year" with
  | some v => !(isIntInstance v)
  | none => false

/-- The loop `for s in ("title", "author", "isbn"): if s in data and not
isinstance(data[s], str): abort(...)` collapsed to its success/failure bit. -/
def strCheckFails (data : Payload) : Bool :=
  stringFields.any (fun s =>
    match lookupKey data s with
    | some v => !(isStrInstance v)
    | none => false)

/-- Embeds `_validate_fields(data, required)` from `books/routes.py`.
Checks run in source order: unknown keys, then (when `required`) missing
keys, then the `year` integer check, then the string checks; each failure
is an `abort(400, ...)`, embedded as `.error` with the message's constant
part. On success the payload itself is returned. -/
def validate_fields (data : Payload) (required : Bool) : Except String Payload :=
  if data.any (fun kv => !(allowedFields.contains kv.1)) then
    .error "Unknown fields"
  else if required && !((sortedAllowedFields.filter
      (fun f => (lookupKey data f).isNone)).isEmpty) then
    .error "Missing required fields"
  else if yearCheckFails data then
    .error "Field year must be an integer"
  else if strCheckFails data then
    .error "Field s must be a string"
  else
    .ok data

/-- Embeds `_require_json_object`: a non-object body is rejected with a 400
("Request body must be a JSON object"); the transport-level 415 check on the
content-type header is outside the decoded-value model. The error carries
the HTTP status and message. -/
def require_json_object : JValue → Except (Nat × String) Payload
  | .jobj d => .ok d
  | _ => .error (400, "Request body must be a JSON object")

/-- The body-decoding-then-validation prefix shared by the create, replace
and update handlers: `data = _require_json_object()` followed by
`data = _validate_fields(data, required)`. Validator failures abort 400. -/
def validateBody (body : JValue) (required : Bool) : Except (Nat × String) Payload :=
  match require_json_object body with
  | .error e => .error e
  | .ok data =>
    match validate_fields data required with
    | .error m => .error (400, m)
    | .ok data => .ok data

/-- A row of the `books` table, per `books/models.py`: the four caller
fields plus the primary key and the server-managed columns. `created_at`
has server default `now()`, `updated_at` is set by `onupdate=now()`, and
`status` has server default "active". Times are abstract ticks. -/
structure BookRow where
  id : Nat
  title : String
  author : String
  year : Int
  isbn : String
  createdAt : Option Nat
  updatedAt : Option Nat
  status : String
  deriving DecidableEq, Repr

/-- The `books` table plus its autoincrement identity counter (the next
primary key the store will assign). -/
structure DB where
  rows : List BookRow
  nextId : Nat
  deriving DecidableEq, Repr

/-- Store invariant maintained by the autoincrementing primary key: every
existing row's id is below the counter, so assigned ids are fresh. -/
def wfDB (db : DB) : Prop :=
  ∀ r ∈ db.rows, r.id < db.nextId

/-- Embeds `_book_to_dict` from `books/repository.py`: the public mapping
exposes exactly the five keys id/title/author/year/isbn, never the
`created_at` / `updated_at` / `status` columns. -/
def book_to_dict (b : BookRow) : Payload :=
  [("id", .jint b.id), ("title", .jstr b.title), ("author", .jstr b.author),
   ("year", .jint b.year), ("isbn", .jstr b.isbn)]

/-- The four caller-supplied fields of a validated full-write payload, as
`create_book` reads them (`data["title"]`, `data["author"]`,
`data["year"]`, `data["isbn"]`). -/
structure BookFields where
  title : String
  author : String
  year : Int
  isbn : String
  deriving DecidableEq, Repr

/-- The fields supplied by a validated partial-update payload: `update_book`
iterates `fields.items()` and `setattr`s each present key. -/
structure PatchFields where
  title : Option String
  author : Option String
  year : Option Int
  isbn : Option String
  deriving DecidableEq, Repr

/-- Python `not fields` on the partial dict: no key supplied. -/
def PatchFields.isEmptyPatch (pf : PatchFields) : Bool :=
  pf.title.isNone && pf.author.isNone && pf.year.isNone && pf.isbn.isNone

/-- The store-level failure a commit can raise: the unique constraint on
`isbn` (models.py) violated, surfacing as an IntegrityError. It is distinct
from success and from the absence signal (`Option.none`). -/
inductive RepoError where
  | uniqueViolation
  deriving DecidableEq, Repr

/-- Insertion into an id-sorted list, for the `ORDER BY id` of `list_books`. -/
def insertById (b : BookRow) : List BookRow → List BookRow
  | [] => [b]
  | c :: cs => if b.id ≤ c.id then b :: c :: cs else c :: insertById b cs

/-- Sorting the table by ascending id (`select(Book).order_by(Book.id)`). -/
def sortById : List BookRow → List BookRow
  | [] => []
  | b :: bs => insertById b (sortById bs)

/-- Embeds `list_books` from `books/repository.py`. -/
def list_books (db : DB) : List Payload :=
  (sortById db.rows).map book_to_dict

/-- Embeds `get_book`: `session.get(Book, book_id)` is a primary-key
lookup; absence yields `none`. -/
def get_book (db : DB) (book_id : Nat) : Option Payload :=
  (db.rows.find? (fun r => r.id == book_id)).map book_to_dict

/-- The row `create_book` inserts: the four supplied fields, the id
assigned by the autoincrement counter, `created_at` from the server default
`now()`, `updated_at` NULL (no default, set only on update), `status` from
the server default "active". -/
def freshRow (now : Nat) (db : DB) (f : BookFields) : BookRow :=
  { id := db.nextId,
    title := f.title,
    author := f.author,
    year := f.year,
    isbn := f.isbn,
    createdAt := some now,
    updatedAt := none,
    status := "active" }

/-- Embeds `create_book` from `books/repository.py`: build the ORM object,
`session.add` + `commit`. The commit violates the unique `isbn` constraint
when an existing row carries the same isbn: the transaction rolls back and
the IntegrityError propagates, leaving the table unchanged. Otherwise the
row is appended, `session.refresh` populates the server-assigned columns,
and `_book_to_dict` of the new row is returned. -/
def create_book (now : Nat) (db : DB) (f : BookFields) :
    Except RepoError (Payload × DB) :=
  if db.rows.any (fun r => r.isbn == f.isbn) then
    .error .uniqueViolation
  else
    .ok (book_to_dict (freshRow now db f),
      { rows := db.rows ++ [freshRow now db f], nextId := db.nextId + 1 })

/-- Embeds `replace_book`: primary-key fetch, absence short-circuits to
`none` with the table untouched; otherwise all four fields are overwritten,
the commit's UPDATE fires `onupdate=now()` on `updated_at`, and the unique
`isbn` constraint is checked against the other rows. -/
def replace_book (now : Nat) (db : DB) (book_id : Nat) (f : BookFields) :
    Except RepoError (Option Payload × DB) :=
  match db.rows.find? (fun r => r.id == book_id) with
  | none => .ok (none, db)
  | some row =>
    let row' : BookRow :=
      { row with
        title := f.title,
        author := f.author,
        year := f.year,
        isbn := f.isbn,
        updatedAt := some now }
    if db.rows.any (fun r => r.id != book_id && r.isbn == row'.isbn) then
      .error .uniqueViolation
    else
      .ok (some (book_to_dict row'),
        { db with rows := db.rows.map (fun r => if r.id == book_id then row' else r) })

/-- Merging the supplied fields into a row (`setattr(book, key, value)` for
each supplied key); the commit's UPDATE sets `updated_at` via `onupdate`. -/
def applyPatch (now : Nat) (row : BookRow) (pf : PatchFields) : BookRow :=
  { row with
    title := pf.title.getD row.title,
    author := pf.author.getD row.author,
    year := pf.year.getD row.year,
    isbn := pf.isbn.getD row.isbn,
    updatedAt := some now }

/-- Embeds `update_book`: an empty field dict returns `None` before any
session is opened; then primary-key fetch, merge of the supplied fields,
and commit with the unique `isbn` constraint checked against other rows. -/
def update_book (now : Nat) (db : DB) (book_id : Nat) (pf : PatchFields) :
    Except RepoError (Option Payload × DB) :=
  if pf.isEmptyPatch then
    .ok (none, db)
  else
    match db.rows.find? (fun r => r.id == book_id) with
    | none => .ok (none, db)
    | some row =>
      let row' := applyPatch now row pf
      if db.rows.any (fun r => r.id != book_id && r.isbn == row'.isbn) then
        .error .uniqueViolation
      else
        .ok (some (book_to_dict row'),
          { db with rows := db.rows.map (fun r => if r.id == book_id then row' else r) })

/-- Embeds `delete_book`: primary-key fetch; absence yields `false` with
the table untouched; otherwise the row is deleted (DELETE by primary key)
and `true` is returned. -/
def delete_book (db : DB) (book_id : Nat) : Bool × DB :=
  match db.rows.find? (fun r => r.id == book_id) with
  | none => (false, db)
  | some _ => (true, { db with rows := db.rows.filter (fun r => r.id != book_id) })

/-- Reading a validated full-write payload the way `create_book` /
`replace_book` read it (`data["title"]`, ..., `data["isbn"]`). A
`required=true`-validated payload always yields `some`: the four keys are
present, title/author/isbn are strings and year passes `isinstance(_, int)`
(a boolean year is Python's `True == 1` / `False == 0`). -/
def toBookFields (data : Payload) : Option BookFields :=
  match lookupKey data "title", lookupKey data "author",
      lookupKey data "year", lookupKey data "isbn" with
  | some (.jstr t), some (.jstr a), some y, some (.jstr i) =>
    match y with
    | .jint n => some ⟨t, a, n, i⟩
    | .jbool b => some ⟨t, a, if b then 1 else 0, i⟩
    | _ => none
  | _, _, _, _ => none

/-- Turn a string-typed value into the string `setattr` would store. -/
def asStr : JValue → Option String
  | .jstr s => some s
  | _ => none

/-- Turn an integer-typed value into the integer `setattr` would store
(Python booleans are the integers 1 and 0). -/
def asInt : JValue → Option Int
  | .jint n => some n
  | .jbool b => some (if b then 1 else 0)
  | _ => none

/-- Reading a validated partial-update payload as the supplied-field record
`update_book` merges (`for key, value in fields.items(): setattr(...)`). -/
def toPatchFields (data : Payload) : PatchFields :=
  { title := (lookupKey data "title").bind asStr,
    author := (lookupKey data "author").bind asStr,
    year := (lookupKey data "year").bind asInt,
    isbn := (lookupKey data "isbn").bind asStr }

/-- An HTTP response as the handlers and the app-level error handlers in
`app.py` produce it: a JSON body with a status code, a 204 with empty body,
or the JSON error shape with status code and message. -/
inductive Resp where
  | okBook (code : Nat) (book : Payload)
  | okList (books : List Payload)
  | noContent
  | err (code : Nat) (msg : String)

/-- The fixed message of the app-level 500 handler in `app.py`, which
catches everything the handlers do not (an IntegrityError escaping
`repository.create_book` included) and leaks no internal detail. -/
def internalErrorMsg : String := "An unexpected error occurred."

/-- Whether a response is a client error (4xx), as opposed to a success or
a server-side failure. -/
def isClientError : Resp → Bool
  | .err code _ => decide (400 ≤ code ∧ code < 500)
  | _ => false

/-- Embeds the POST handler `create_book` from `books/routes.py` composed
with the error handlers of `app.py`: decode + validate (aborts become 400
JSON errors), then `repository.create_book`; an escaping store error hits
the generic 500 handler and the failed transaction leaves the table
unchanged; success is 201 with the new row's public dict. -/
def createRoute (now : Nat) (db : DB) (body : JValue) : Resp × DB :=
  match validateBody body true with
  | .error (c, m) => (.err c m, db)
  | .ok data =>
    match toBookFields data with
    | none => (.err 500 internalErrorMsg, db)
    | some f =>
      match create_book now db f with
      | .error _ => (.err 500 internalErrorMsg, db)
      | .ok (d, db') => (.okBook 201 d, db')

/-- Embeds the PUT handler `replace_book`: decode + validate, then
`repository.replace_book`; absence maps to 404, an escaping store error to
the generic 500, success to 200 with the updated row. -/
def replaceRoute (now : Nat) (db : DB) (book_id : Nat) (body : JValue) : Resp × DB :=
  match validateBody body true with
  | .error (c, m) => (.err c m, db)
  | .ok data =>
    match toBookFields data with
    | none => (.err 500 internalErrorMsg, db)
    | some f =>
      match replace_book now db book_id f with
      | .error _ => (.err 500 internalErrorMsg, db)
      | .ok (none, db') => (.err 404 "Book not found", db')
      | .ok (some d, db') => (.okBook 200 d, db')

/-- Embeds the PATCH handler `update_book`: decode + validate with
`required=False`, reject an empty payload with 400 "No fields to update"
before touching the store, then `repository.update_book`; absence maps to
404, an escaping store error to the generic 500. -/
def updateRoute (now : Nat) (db : DB) (book_id : Nat) (body : JValue) : Resp × DB :=
  match validateBody body false with
  | .error (c, m) => (.err c m, db)
  | .ok data =>
    if data.isEmpty then
      (.err 400 "No fields to update", db)
    else
      match update_book now db book_id (toPatchFields data) with
      | .error _ => (.err 500 internalErrorMsg, db)
      | .ok (none, db') => (.err 404 "Book not found", db')
      | .ok (some d, db') => (.okBook 200 d, db')

/-- The JSON body a client sends to create/replace a book with fields `f`. -/
def fieldsToBody (f : BookFields) : JValue :=
  .jobj [("title", .jstr f.title), ("author", .jstr f.author),
    ("year", .jint f.year), ("isbn", .jstr f.isbn)]

/-- The partial payload `{year: Y}` of the spec's update-merge property. -/
def yearOnly (y : Int) : PatchFields :=
  { title := none, author := none, year := some y, isbn := none }

/-- An empty table whose identity counter starts at 1 (PostgreSQL
`RESTART IDENTITY`). -/
def dbEmpty : DB := { rows := [], nextId := 1 }

/-- The spec's concrete create scenario. -/
def f0 : BookFields :=
  { title := "Clean Code", author := "Robert C. Martin", year := 2008,
    isbn := "9780132350884" }

/-- Book 1 of the test fixture (`tests/test_app.py` inserts isbn "111"). -/
def row111 : BookRow :=
  { id := 1, title := "Book 1", author := "Author 1", year := 2001,
    isbn := "111", createdAt := some 0, updatedAt := none,
    status := "active" }

/-- A one-row table holding the fixture row with isbn "111". -/
def db111 : DB := { rows := [row111], nextId := 2 }

/-- A field set whose isbn collides with the fixture row. -/
def fDup : BookFields :=
  { title := "Another", author := "Someone", year := 2020, isbn := "111" }

/-- The table state after creating `f1` and then patching the new row's
year: the appended row, updated in place by the UPDATE statement. -/
def patchedDB (now now2 : Nat) (db : DB) (f1 : BookFields) (Y : Int) : DB :=
  { rows := (db.rows ++ [freshRow now db f1]).map
      (fun r => if r.id == db.nextId
        then applyPatch now2 (freshRow now db f1) (yearOnly Y) else r),
    nextId := db.nextId + 1 }

end FlaskBooks

namespace FlaskBooks

example : validate_fields [("title", .jstr "t"), ("author", .jstr "a"),
    ("year", .jint 2008), ("isbn", .jstr "i")] true =
    .ok [("title", .jstr "t"), ("author", .jstr "a"),
    ("year", .jint 2008), ("isbn", .jstr "i")] := rfl

example : validate_fields [("title", .jstr "t")] true =
    .error "Missing required fields" := rfl

example : validate_fields [("name", .jstr "t")] false =
    .error "Unknown fields" := rfl

example : validate_fields [("year", .jstr "1999")] false =
    .error "Field year must be an integer" := rfl

example : validate_fields [("year", .jbool true)] false =
    .ok [("year", .jbool true)] := rfl

/-! Helper lemmas characterising each validator check. -/

lemma unknownCheck_eq_false (p : Payload) :
    (p.any (fun kv => !(allowedFields.contains kv.1))) = false ↔
      ∀ kv ∈ p, kv.1 ∈ allowedFields := by
  rw [List.any_eq_false]
  constructor
  · intro h kv hkv
    have := h kv hkv
    simpa [List.elem_iff] using this
  · intro h kv hkv
    simpa [List.elem_iff] using h kv hkv

lemma mem_sorted_iff_mem_allowed (f : String) :
    f ∈ sortedAllowedFields ↔ f ∈ allowedFields := by
  simp only [sortedAllowedFields, allowedFields, List.mem_cons,
    List.not_mem_nil, or_false]
  tauto

lemma missingCheck_eq_false (p : Payload) :
    ((sortedAllowedFields.filter
        (fun f => (lookupKey p f).isNone)).isEmpty) = true ↔
      ∀ f ∈ allowedFields, (lookupKey p f).isSome = true := by
  rw [List.isEmpty_iff, List.filter_eq_nil_iff]
  constructor
  · intro h f hf
    have := h f ((mem_sorted_iff_mem_allowed f).mpr hf)
    rw [Option.isNone_iff_eq_none] at this
    exact Option.isSome_iff_ne_none.mpr this
  · intro h f hf
    have := h f ((mem_sorted_iff_mem_allowed f).mp hf)
    rw [Option.isNone_iff_eq_none]
    exact Option.isSome_iff_ne_none.mp this

lemma yearCheckFails_eq_false (p : Payload) :
    yearCheckFails p = false ↔
      ∀ v, lookupKey p "year" = some v → isIntInstance v = true := by
  unfold yearCheckFails
  cases h : lookupKey p "year" with
  | none => simp
  | some v => simp [h]

lemma strCheckFails_eq_false (p : Payload) :
    strCheckFails p = false ↔
      ∀ s ∈ stringFields, ∀ v, lookupKey p s = some v → isStrInstance v = true := by
  unfold strCheckFails
  rw [List.any_eq_false]
  constructor
  · intro h s hs v hv
    have := h s hs
    rw [hv] at this
    simpa using this
  · intro h s hs
    cases hlk : lookupKey p s with
    | none => simp
    | some v => simpa using h s hs v hlk

/-- C1. For every key-value payload `p`, `_validate_fields(p, required=True)`
succeeds (returning `p` itself) if and only if: every key of `p` is one of
title/author/year/isbn, all four of those keys are present, the value of
`year` (when present) passes Python's integer-instance check, and the
values of title/author/isbn (when present) pass the string-instance check.
Otherwise it aborts with a 400 bad-request error (every `.error` branch of
the embedded validator is an `abort(400, ...)` in the source). -/
theorem c1_validate_required_iff (p : Payload) :
    validate_fields p true = .ok p ↔
      ((∀ kv ∈ p, kv.1 ∈ allowedFields) ∧
       (∀ f ∈ allowedFields, (lookupKey p f).isSome = true) ∧
       (∀ v, lookupKey p "year" = some v → isIntInstance v = true) ∧
       (∀ s ∈ stringFields, ∀ v, lookupKey p s = some v → isStrInstance v = true)) := by
  constructor
  · intro h
    unfold validate_fields at h
    split_ifs at h with h1 h2 h3 h4
    refine ⟨(unknownCheck_eq_false p).mp (by simpa using h1), ?_, ?_, ?_⟩
    · apply (missingCheck_eq_false p).mp
      simpa using h2
    · exact (yearCheckFails_eq_false p).mp (by simpa using h3)
    · exact (strCheckFails_eq_false p).mp (by simpa using h4)
  · rintro ⟨hA, hB, hC, hD⟩
    have h1 : (p.any (fun kv => !(allowedFields.contains kv.1))) = false :=
      (unknownCheck_eq_false p).mpr hA
    have h2 : ((sortedAllowedFields.filter
        (fun f => (lookupKey p f).isNone)).isEmpty) = true :=
      (missingCheck_eq_false p).mpr hB
    have h3 : yearCheckFails p = false := (yearCheckFails_eq_false p).mpr hC
    have h4 : strCheckFails p = false := (strCheckFails_eq_false p).mpr hD
    unfold validate_fields
    rw [if_neg (by simp only [h1]; simp), if_neg (by simp only [h2]; simp),
      if_neg (by simp only [h3]; simp), if_neg (by simp only [h4]; simp)]

/-- C10. A payload whose `year` value is a boolean passes the validator's
integer check, because Python's `isinstance(True, int)` holds (`bool` is a
subclass of `int`): the full-write payload {title: t, author: a, year: b,
isbn: i} with text t, a, i passes `_validate_fields(_, required=True)` for
either boolean b. -/
theorem c10_bool_year_accepted (t a i : String) (b : Bool) :
    validate_fields [("title", .jstr t), ("author", .jstr a),
      ("year", .jbool b), ("isbn", .jstr i)] true =
    .ok [("title", .jstr t), ("author", .jstr a),
      ("year", .jbool b), ("isbn", .jstr i)] := rfl

/-- C2 (amended). When no existing row carries the supplied isbn,
`create_book` appends exactly one new row, the store assigns its id from
the autoincrement counter and sets `created_at`/`status` (and leaves
`updated_at` NULL) on the stored row, and the call returns the public
five-field mapping of that row, assigned id included. The server-assigned
timestamp/status columns live on the stored row only: `_book_to_dict`
does not expose them in the returned mapping (see the counterexample). -/
theorem c2_create_inserts_row (now : Nat) (db : DB) (f : BookFields)
    (h : ∀ r ∈ db.rows, r.isbn ≠ f.isbn) :
    create_book now db f =
      .ok (book_to_dict (freshRow now db f),
        { rows := db.rows ++ [freshRow now db f], nextId := db.nextId + 1 }) ∧
    (freshRow now db f).id = db.nextId ∧
    (freshRow now db f).createdAt = some now ∧
    (freshRow now db f).updatedAt = none ∧
    (freshRow now db f).status = "active" ∧
    lookupKey (book_to_dict (freshRow now db f)) "id" = some (.jint db.nextId) := by
  have hany : (db.rows.any (fun r => r.isbn == f.isbn)) = false :=
    List.any_eq_false.mpr (fun r hr => by simp [h r hr])
  refine ⟨?_, rfl, rfl, rfl, rfl, rfl⟩
  unfold create_book
  rw [if_neg (by simp only [hany]; simp)]

/-- Witness for C2: the spec's concrete create scenario on the empty store. -/
theorem c2_create_inserts_row_witness :
    (∀ r ∈ dbEmpty.rows, r.isbn ≠ f0.isbn) ∧
    (create_book 0 dbEmpty f0 =
      .ok (book_to_dict (freshRow 0 dbEmpty f0),
        { rows := dbEmpty.rows ++ [freshRow 0 dbEmpty f0],
          nextId := dbEmpty.nextId + 1 }) ∧
    (freshRow 0 dbEmpty f0).id = dbEmpty.nextId ∧
    (freshRow 0 dbEmpty f0).createdAt = some 0 ∧
    (freshRow 0 dbEmpty f0).updatedAt = none ∧
    (freshRow 0 dbEmpty f0).status = "active" ∧
    lookupKey (book_to_dict (freshRow 0 dbEmpty f0)) "id" =
      some (.jint dbEmpty.nextId)) :=
  ⟨by simp [dbEmpty], c2_create_inserts_row 0 dbEmpty f0 (by simp [dbEmpty])⟩

/-- Counterexample to C2 as stated: the create succeeds and the stored row
carries the server-assigned `created_at` and `status`, but the mapping the
operation returns has exactly the five public keys and no
`created_at`/`updated_at`/`status` key, so the operation does not return
the server-assigned timestamps/status. -/
theorem c2_counterexample :
    create_book 0 dbEmpty f0 =
      .ok (book_to_dict (freshRow 0 dbEmpty f0),
        { rows := [freshRow 0 dbEmpty f0], nextId := 2 }) ∧
    (freshRow 0 dbEmpty f0).createdAt = some 0 ∧
    (freshRow 0 dbEmpty f0).status = "active" ∧
    lookupKey (book_to_dict (freshRow 0 dbEmpty f0)) "created_at" = none ∧
    lookupKey (book_to_dict (freshRow 0 dbEmpty f0)) "updated_at" = none ∧
    lookupKey (book_to_dict (freshRow 0 dbEmpty f0)) "status" = none ∧
    dictKeys (book_to_dict (freshRow 0 dbEmpty f0)) =
      ["id", "title", "author", "year", "isbn"] :=
  ⟨rfl, rfl, rfl, rfl, rfl, rfl, rfl⟩

/-- C5. Replacing a nonexistent id returns the absence signal (`None`) and
leaves the table and the identity counter completely unchanged: the
primary-key fetch misses and `replace_book` returns before writing. -/
theorem c5_replace_missing_id (now : Nat) (db : DB) (book_id : Nat)
    (f : BookFields) (h : ∀ r ∈ db.rows, r.id ≠ book_id) :
    replace_book now db book_id f = .ok (none, db) := by
  have hfind : db.rows.find? (fun r => r.id == book_id) = none :=
    List.find?_eq_none.mpr (fun r hr => by simp [h r hr])
  unfold replace_book
  rw [hfind]

/-- Witness for C5: replacing id 999 in the one-row fixture table. -/
theorem c5_replace_missing_id_witness :
    (∀ r ∈ db111.rows, r.id ≠ 999) ∧
    replace_book 7 db111 999 f0 = .ok (none, db111) :=
  ⟨by simp [db111, row111], c5_replace_missing_id 7 db111 999 f0
    (by simp [db111, row111])⟩

/-- No row of a well-formed table carries the id the counter will assign. -/
lemma find?_nextId_eq_none (db : DB) (hwf : wfDB db) :
    db.rows.find? (fun r => r.id == db.nextId) = none :=
  List.find?_eq_none.mpr (fun r hr => by
    have := hwf r hr
    simp
    omega)

/-- C4. Round trip: whenever `create_book` succeeds and returns mapping `r`
(whose id is the counter value the store assigned), an immediate `get_book`
on that assigned id in the resulting table returns exactly `r`. The
well-formedness hypothesis is the autoincrement invariant: no existing row
already carries the id the counter assigns. -/
theorem c4_create_get_round_trip (now : Nat) (db : DB) (f : BookFields)
    (r : Payload) (db' : DB) (hwf : wfDB db)
    (h : create_book now db f = .ok (r, db')) :
    get_book db' db.nextId = some r ∧
    lookupKey r "id" = some (.jint db.nextId) := by
  unfold create_book at h
  split_ifs at h
  simp only [Except.ok.injEq, Prod.mk.injEq] at h
  obtain ⟨hr, hdb⟩ := h
  subst hr hdb
  constructor
  · unfold get_book
    rw [List.find?_append, find?_nextId_eq_none db hwf]
    simp [freshRow]
  · simp [book_to_dict, lookupKey, freshRow]

/-- Witness for C4: create on the empty store, then get id 1. -/
theorem c4_create_get_round_trip_witness :
    wfDB dbEmpty ∧
    create_book 0 dbEmpty f0 =
      .ok (book_to_dict (freshRow 0 dbEmpty f0),
        { rows := [freshRow 0 dbEmpty f0], nextId := 2 }) ∧
    (get_book { rows := [freshRow 0 dbEmpty f0], nextId := 2 } dbEmpty.nextId =
        some (book_to_dict (freshRow 0 dbEmpty f0)) ∧
      lookupKey (book_to_dict (freshRow 0 dbEmpty f0)) "id" =
        some (.jint dbEmpty.nextId)) :=
  ⟨by simp [wfDB, dbEmpty], rfl,
    c4_create_get_round_trip 0 dbEmpty f0 _ _ (by simp [wfDB, dbEmpty]) rfl⟩

/-- C7. Delete is terminal: if `delete_book` returns `true` then `get_book`
on the same id in the resulting table returns the absence signal and a
second `delete_book` returns `false` without changing the table again; and
deleting an id with no row returns `false` with the table unchanged. -/
theorem c7_delete_terminal (db : DB) (book_id : Nat) :
    ((delete_book db book_id).1 = true →
      get_book (delete_book db book_id).2 book_id = none ∧
      delete_book (delete_book db book_id).2 book_id =
        (false, (delete_book db book_id).2)) ∧
    ((∀ r ∈ db.rows, r.id ≠ book_id) → delete_book db book_id = (false, db)) := by
  constructor
  · intro htrue
    cases hf : db.rows.find? (fun r => r.id == book_id) with
    | none =>
      unfold delete_book at htrue
      rw [hf] at htrue
      exact absurd htrue (by simp)
    | some row =>
      have hd : delete_book db book_id =
          (true, { db with rows := db.rows.filter (fun r => r.id != book_id) }) := by
        unfold delete_book
        rw [hf]
      have hnone : (db.rows.filter (fun r => r.id != book_id)).find?
          (fun r => r.id == book_id) = none := by
        apply List.find?_eq_none.mpr
        intro x hx
        have := (List.mem_filter.mp hx).2
        simpa using this
      rw [hd]
      constructor
      · unfold get_book
        simp only [hnone, Option.map_none']
      · unfold delete_book
        simp only [hnone]
  · intro h
    have hfind : db.rows.find? (fun r => r.id == book_id) = none :=
      List.find?_eq_none.mpr (fun r hr => by simp [h r hr])
    unfold delete_book
    rw [hfind]

/-- Validation always accepts the canonical full-write body built from a
field set: all four keys present, three strings and an integer year. -/
lemma validateBody_fieldsToBody (f : BookFields) :
    validateBody (fieldsToBody f) true =
      .ok [("title", .jstr f.title), ("author", .jstr f.author),
        ("year", .jint f.year), ("isbn", .jstr f.isbn)] := rfl

/-- Reading the canonical full-write body back recovers the field set. -/
lemma toBookFields_fieldsToBody (f : BookFields) :
    toBookFields [("title", .jstr f.title), ("author", .jstr f.author),
      ("year", .jint f.year), ("isbn", .jstr f.isbn)] = some f := rfl

/-- C3 (amended). Creating a book whose isbn equals an existing row's isbn
fails in the store accessor with the distinguishable unique-violation
error — not success, not the absence signal, and no row is returned — but
the POST handler does not catch it and does not map it to a client error:
the failure surfaces through the app-level 500 handler as the generic
internal error, with the table unchanged. -/
theorem c3_duplicate_isbn_propagates (now : Nat) (db : DB) (f : BookFields)
    (h : ∃ r ∈ db.rows, r.isbn = f.isbn) :
    create_book now db f = .error .uniqueViolation ∧
    createRoute now db (fieldsToBody f) = (.err 500 internalErrorMsg, db) := by
  have hany : (db.rows.any (fun r => r.isbn == f.isbn)) = true := by
    obtain ⟨r, hr, he⟩ := h
    exact List.any_eq_true.mpr ⟨r, hr, by simp [he]⟩
  have hcb : create_book now db f = .error .uniqueViolation := by
    unfold create_book
    rw [if_pos (by simp only [hany])]
  refine ⟨hcb, ?_⟩
  simp only [createRoute, validateBody_fieldsToBody, toBookFields_fieldsToBody, hcb]

/-- Witness for C3 (amended): the fixture table already holds isbn "111". -/
theorem c3_duplicate_isbn_propagates_witness :
    (∃ r ∈ db111.rows, r.isbn = fDup.isbn) ∧
    (create_book 4 db111 fDup = .error .uniqueViolation ∧
      createRoute 4 db111 (fieldsToBody fDup) = (.err 500 internalErrorMsg, db111)) :=
  ⟨⟨row111, by simp [db111], rfl⟩,
    c3_duplicate_isbn_propagates 4 db111 fDup ⟨row111, by simp [db111], rfl⟩⟩

/-- Counterexample to C3 as stated: at a concrete duplicate-isbn create, the
store error is raised, but the caller surfaces it as the generic 500
internal error, which is not a client (4xx) error. -/
theorem c3_counterexample :
    create_book 0 db111 fDup = .error .uniqueViolation ∧
    createRoute 0 db111 (fieldsToBody fDup) = (.err 500 internalErrorMsg, db111) ∧
    isClientError (createRoute 0 db111 (fieldsToBody fDup)).1 = false :=
  ⟨rfl, rfl, rfl⟩

/-- C8. Fail fast: for each write handler (POST create, PUT replace, PATCH
update), if the body fails decoding or validation then the handler returns
an error response and the table is unchanged — the store is never reached,
because the abort happens before any repository call. -/
theorem c8_fail_fast (now : Nat) (db : DB) (book_id : Nat) (body : JValue) :
    ((∃ e, validateBody body true = .error e) →
      (∃ c m, createRoute now db body = (.err c m, db)) ∧
      (∃ c m, replaceRoute now db book_id body = (.err c m, db))) ∧
    ((∃ e, validateBody body false = .error e) →
      (∃ c m, updateRoute now db book_id body = (.err c m, db))) := by
  constructor
  · rintro ⟨⟨c, m⟩, he⟩
    constructor
    · exact ⟨c, m, by unfold createRoute; rw [he]⟩
    · exact ⟨c, m, by unfold replaceRoute; rw [he]⟩
  · rintro ⟨⟨c, m⟩, he⟩
    exact ⟨c, m, by unfold updateRoute; rw [he]⟩

/-- Witness for C8: a string body is not a JSON object, so every write
handler rejects it up front and leaves the fixture table unchanged. -/
theorem c8_fail_fast_witness :
    (∃ e, validateBody (.jstr "nope") true = .error e) ∧
    ((∃ c m, createRoute 3 db111 (.jstr "nope") = (.err c m, db111)) ∧
      (∃ c m, replaceRoute 3 db111 1 (.jstr "nope") = (.err c m, db111))) ∧
    ((∃ e, validateBody (.jstr "nope") false = .error e) ∧
      (∃ c m, updateRoute 3 db111 1 (.jstr "nope") = (.err c m, db111))) :=
  ⟨⟨(400, "Request body must be a JSON object"), rfl⟩,
    (c8_fail_fast 3 db111 1 (.jstr "nope")).1
      ⟨(400, "Request body must be a JSON object"), rfl⟩,
    ⟨(400, "Request body must be a JSON object"), rfl⟩,
    (c8_fail_fast 3 db111 1 (.jstr "nope")).2
      ⟨(400, "Request body must be a JSON object"), rfl⟩⟩

/-- Witness for C7: deleting the fixture row (id 1) is terminal, and
deleting absent id 999 reports `false`. -/
theorem c7_delete_terminal_witness :
    ((delete_book db111 1).1 = true ∧
      (get_book (delete_book db111 1).2 1 = none ∧
        delete_book (delete_book db111 1).2 1 =
          (false, (delete_book db111 1).2))) ∧
    ((∀ r ∈ db111.rows, r.id ≠ 999) ∧ delete_book db111 999 = (false, db111)) :=
  ⟨⟨rfl, (c7_delete_terminal db111 1).1 rfl⟩,
    ⟨by simp [db111, row111],
      (c7_delete_terminal db111 999).2 (by simp [db111, row111])⟩⟩

/-- C6. Update merges: after a successful create of `f1` (which assigns id
`db.nextId`), patching that id with `{year: Y}` and then getting it yields
a row whose `year` is `Y` and whose title, author and isbn are unchanged
from `f1` (and whose id is the assigned one). The well-formedness
hypothesis is the autoincrement invariant of the store. -/
theorem c6_update_merges (now now2 : Nat) (db : DB) (f1 : BookFields) (Y : Int)
    (r1 : Payload) (db1 : DB) (hwf : wfDB db)
    (hc : create_book now db f1 = .ok (r1, db1)) :
    ∃ db2,
      update_book now2 db1 db.nextId (yearOnly Y) =
        .ok (some [("id", .jint db.nextId), ("title", .jstr f1.title),
          ("author", .jstr f1.author), ("year", .jint Y),
          ("isbn", .jstr f1.isbn)], db2) ∧
      get_book db2 db.nextId =
        some [("id", .jint db.nextId), ("title", .jstr f1.title),
          ("author", .jstr f1.author), ("year", .jint Y),
          ("isbn", .jstr f1.isbn)] := by
  unfold create_book at hc
  split_ifs at hc with hdup
  simp only [Except.ok.injEq, Prod.mk.injEq] at hc
  obtain ⟨hr1, hdb1⟩ := hc
  subst hdb1
  have hdup' : ∀ r ∈ db.rows, r.isbn ≠ f1.isbn := by
    intro r hr
    have : ¬(r.isbn == f1.isbn) = true := by
      intro hbe
      exact hdup (List.any_eq_true.mpr ⟨r, hr, hbe⟩)
    simpa using this
  have hfind : (db.rows ++ [freshRow now db f1]).find?
      (fun r => r.id == db.nextId) = some (freshRow now db f1) := by
    rw [List.find?_append, find?_nextId_eq_none db hwf]
    simp [freshRow]
  have hrowPatch : applyPatch now2 (freshRow now db f1) (yearOnly Y) =
      { id := db.nextId, title := f1.title, author := f1.author, year := Y,
        isbn := f1.isbn, createdAt := some now, updatedAt := some now2,
        status := "active" } := rfl
  have huniq : ((db.rows ++ [freshRow now db f1]).any
      (fun r => r.id != db.nextId &&
        r.isbn == (applyPatch now2 (freshRow now db f1) (yearOnly Y)).isbn)) = false := by
    rw [List.any_append]
    have hleft : (db.rows.any
        (fun r => r.id != db.nextId &&
          r.isbn == (applyPatch now2 (freshRow now db f1) (yearOnly Y)).isbn)) = false := by
      apply List.any_eq_false.mpr
      intro r hr
      have := hdup' r hr
      simp [hrowPatch, this]
    have hright : ([freshRow now db f1].any
        (fun r => r.id != db.nextId &&
          r.isbn == (applyPatch now2 (freshRow now db f1) (yearOnly Y)).isbn)) = false := by
      simp [freshRow]
    rw [hleft, hright]
    rfl
  refine ⟨patchedDB now now2 db f1 Y, ?_, ?_⟩
  · unfold update_book patchedDB
    rw [if_neg (by simp [yearOnly, PatchFields.isEmptyPatch])]
    simp only [hfind]
    rw [if_neg (by simp only [huniq]; simp)]
    rfl
  · unfold get_book patchedDB
    have hfind2 : ((db.rows ++ [freshRow now db f1]).map
        (fun r => if r.id == db.nextId
          then applyPatch now2 (freshRow now db f1) (yearOnly Y) else r)).find?
          (fun r => r.id == db.nextId) =
        some (applyPatch now2 (freshRow now db f1) (yearOnly Y)) := by
      rw [List.map_append, List.find?_append]
      have hl : ((db.rows.map
          (fun r => if r.id == db.nextId
            then applyPatch now2 (freshRow now db f1) (yearOnly Y) else r)).find?
          (fun r => r.id == db.nextId)) = none := by
        apply List.find?_eq_none.mpr
        intro y hy
        obtain ⟨x, hx, hxy⟩ := List.mem_map.mp hy
        have hlt := hwf x hx
        have hxne : (x.id == db.nextId) = false := by
          simp
          omega
        rw [hxne] at hxy
        simp only [Bool.false_eq_true, if_false] at hxy
        subst hxy
        simp
        omega
      rw [hl]
      simp only [hrowPatch]
      simp [freshRow]
    rw [hfind2, hrowPatch]
    rfl

/-- Witness for C6: create the spec scenario book on the empty store, then
patch its year to 2020 and read it back. -/
theorem c6_update_merges_witness :
    wfDB dbEmpty ∧
    create_book 0 dbEmpty f0 =
      .ok (book_to_dict (freshRow 0 dbEmpty f0),
        { rows := [freshRow 0 dbEmpty f0], nextId := 2 }) ∧
    (∃ db2,
      update_book 1 { rows := [freshRow 0 dbEmpty f0], nextId := 2 }
          dbEmpty.nextId (yearOnly 2020) =
        .ok (some [("id", .jint dbEmpty.nextId), ("title", .jstr f0.title),
          ("author", .jstr f0.author), ("year", .jint 2020),
          ("isbn", .jstr f0.isbn)], db2) ∧
      get_book db2 dbEmpty.nextId =
        some [("id", .jint dbEmpty.nextId), ("title", .jstr f0.title),
          ("author", .jstr f0.author), ("year", .jint 2020),
          ("isbn", .jstr f0.isbn)]) :=
  ⟨by simp [wfDB, dbEmpty], rfl,
    c6_update_merges 0 1 dbEmpty f0 2020 _ _ (by simp [wfDB, dbEmpty]) rfl⟩

/-- The public mapping of any row has exactly the five public keys. -/
lemma dictKeys_book_to_dict (b : BookRow) :
    dictKeys (book_to_dict b) = ["id", "title", "author", "year", "isbn"] := rfl

/-- C9. Every row mapping any store accessor returns — from `list_books`,
`get_book`, `create_book`, `replace_book` or `update_book` — has exactly
the five keys id/title/author/year/isbn, in spite of the underlying table
row also carrying `created_at`, `updated_at` and `status`: every returned
mapping is produced by `_book_to_dict`, which never exposes the extra
columns. -/
theorem c9_public_keys (now : Nat) (db : DB) (book_id : Nat)
    (f : BookFields) (pf : PatchFields) (d : Payload)
    (h : d ∈ list_books db ∨
      get_book db book_id = some d ∨
      (∃ db', create_book now db f = .ok (d, db')) ∨
      (∃ db', replace_book now db book_id f = .ok (some d, db')) ∨
      (∃ db', update_book now db book_id pf = .ok (some d, db'))) :
    dictKeys d = ["id", "title", "author", "year", "isbn"] := by
  rcases h with h | h | ⟨db', h⟩ | ⟨db', h⟩ | ⟨db', h⟩
  · unfold list_books at h
    obtain ⟨b, _, hb⟩ := List.mem_map.mp h
    subst hb
    exact dictKeys_book_to_dict b
  · unfold get_book at h
    cases hf : db.rows.find? (fun r => r.id == book_id) with
    | none => rw [hf] at h; exact absurd h (by simp)
    | some b =>
      rw [hf] at h
      simp only [Option.map_some', Option.some.injEq] at h
      subst h
      exact dictKeys_book_to_dict b
  · unfold create_book at h
    split_ifs at h
    simp only [Except.ok.injEq, Prod.mk.injEq] at h
    obtain ⟨hd, _⟩ := h
    subst hd
    exact dictKeys_book_to_dict _
  · unfold replace_book at h
    cases hf : db.rows.find? (fun r => r.id == book_id) with
    | none => rw [hf] at h; exact absurd h (by simp)
    | some row =>
      simp only [hf] at h
      split_ifs at h
      simp only [Except.ok.injEq, Prod.mk.injEq, Option.some.injEq] at h
      obtain ⟨hd, _⟩ := h
      subst hd
      exact dictKeys_book_to_dict _
  · unfold update_book at h
    split_ifs at h with hemp
    · exact absurd h (by simp)
    · cases hf : db.rows.find? (fun r => r.id == book_id) with
      | none => rw [hf] at h; exact absurd h (by simp)
      | some row =>
        simp only [hf] at h
        split_ifs at h
        simp only [Except.ok.injEq, Prod.mk.injEq, Option.some.injEq] at h
        obtain ⟨hd, _⟩ := h
        subst hd
        exact dictKeys_book_to_dict _

/-- Witness for C9: the mapping `get_book` returns for the fixture row has
exactly the five public keys. -/
theorem c9_public_keys_witness :
    get_book db111 1 = some (book_to_dict row111) ∧
    dictKeys (book_to_dict row111) = ["id", "title", "author", "year", "isbn"] :=
  ⟨rfl, c9_public_keys 0 db111 1 f0 (yearOnly 0) (book_to_dict row111)
    (Or.inr (Or.inl rfl))⟩

end FlaskBooks
